import Mathlib

/-!
Shallow embedding of the audiogram widget (src/src/App.tsx): the per-ear
measurement store, the coordinate mapper, the canvas click handler and the
submission state machine, together with proofs of the specified properties.
JavaScript numbers are modelled exactly: pixel coordinates and the
logarithmic/linear interpolation formulas over ℝ, stored thresholds and
frequencies (which the code only ever assigns integer values) over ℤ and ℕ.
Timers are modelled by returning the scheduled delay in milliseconds next to
the new state, with a separate definition for each timeout callback.
-/

namespace Audiogram

/-- The fixed standard test frequencies (`FREQUENCIES` in App.tsx). -/
def FREQUENCIES : List ℕ := [250, 500, 1000, 2000, 4000, 8000]

/-- The valid intensity range (`INTENSITY_RANGE` in App.tsx). -/
def INTENSITY_RANGE : List ℤ := [-10, 120]

def LEFT_PADDING : ℝ := 80

def TOP_PADDING : ℝ := 80

def BOTTOM_PADDING : ℝ := 50

/-- One measurement entry (`AudiogramPoint` in App.tsx). -/
structure AudiogramPoint where
  frequency : ℕ
  airConduction : Option ℤ
  boneConduction : Option ℤ
deriving DecidableEq

inductive Ear
  | left
  | right
deriving DecidableEq

inductive SubmissionStatus
  | idle
  | submitting
  | success
  | error
deriving DecidableEq

/-- The component state relevant to the claims (the `useState` hooks). -/
structure AppState where
  leftEarData : List AudiogramPoint
  rightEarData : List AudiogramPoint
  selectedEar : Ear
  isDrawingAir : Bool
  showSubmission : Bool
  patientName : String
  patientAge : String
  submissionStatus : SubmissionStatus
  submissionMessage : String
deriving DecidableEq

/-- `FREQUENCIES.map((f) => ({ frequency: f, airConduction: null, boneConduction: null }))`,
the dataset used by the initial state, `clearData` and the post-submission reset. -/
def emptyDataset : List AudiogramPoint :=
  FREQUENCIES.map (fun f => { frequency := f, airConduction := none, boneConduction := none })

/-- The initial values of all the `useState` hooks. -/
def initialState : AppState where
  leftEarData := emptyDataset
  rightEarData := emptyDataset
  selectedEar := Ear.left
  isDrawingAir := true
  showSubmission := false
  patientName := ""
  patientAge := ""
  submissionStatus := SubmissionStatus.idle
  submissionMessage := ""

/-- The dataset of the given ear. -/
def earData (s : AppState) : Ear → List AudiogramPoint
  | Ear.left => s.leftEarData
  | Ear.right => s.rightEarData

def otherEar : Ear → Ear
  | Ear.left => Ear.right
  | Ear.right => Ear.left

/-- `clearData(ear)` from App.tsx. -/
def clearData (ear : Ear) (s : AppState) : AppState :=
  match ear with
  | Ear.left => { s with leftEarData := emptyDataset }
  | Ear.right => { s with rightEarData := emptyDataset }

/-- `data.some((point) => point.airConduction !== null || point.boneConduction !== null)`. -/
def hasEarData (data : List AudiogramPoint) : Bool :=
  data.any (fun p => p.airConduction.isSome || p.boneConduction.isSome)

/-- Models JavaScript `String.prototype.trim`: drop leading and trailing
whitespace (working on the character list so that it evaluates by reduction). -/
def jsTrimList (cs : List Char) : List Char :=
  ((cs.dropWhile Char.isWhitespace).reverse.dropWhile Char.isWhitespace).reverse

/-- Whether `s.trim()` is the empty string (falsy). -/
def trimIsEmpty (s : String) : Bool :=
  (jsTrimList s.toList).isEmpty

def decimalDigits (cs : List Char) : Bool :=
  cs.all (fun c => c.isDigit)

/-- Recognizer for the body of a plain decimal literal: digits with an optional
single decimal point, at least one digit in total. -/
def decimalBody (cs : List Char) : Bool :=
  match cs.span (fun c => c.isDigit) with
  | (intPart, rest) =>
    match rest with
    | [] => !intPart.isEmpty
    | c :: frac => c == '.' && (!intPart.isEmpty || !frac.isEmpty) && decimalDigits frac

def stripSign : List Char → List Char
  | [] => []
  | c :: rest => if c == '+' || c == '-' then rest else c :: rest

/-- Models the JavaScript test `isNaN(Number(s))` used by the age validation,
restricted to plain decimal notation: `Number` trims whitespace, maps a
whitespace-only string to 0 (not NaN), and otherwise parses an optional sign
followed by a decimal literal. -/
def jsNumberIsNaN (s : String) : Bool :=
  let t := jsTrimList s.toList
  if t.isEmpty then false else !(decimalBody (stripSign t))

/-- `submitData` from App.tsx up to the `setTimeout` call; the second component
is the delay in milliseconds of the scheduled `resolveSubmission` callback,
`none` when no timer is scheduled. -/
def submitData (s : AppState) : AppState × Option ℕ :=
  if trimIsEmpty s.patientName then
    ({ s with submissionMessage := "Please enter patient name.",
              submissionStatus := SubmissionStatus.error,
              showSubmission := true }, none)
  else if trimIsEmpty s.patientAge || jsNumberIsNaN s.patientAge then
    ({ s with submissionMessage := "Please enter a valid age.",
              submissionStatus := SubmissionStatus.error,
              showSubmission := true }, none)
  else if !hasEarData s.leftEarData && !hasEarData s.rightEarData then
    ({ s with submissionMessage := "Please enter audiogram data for at least one ear.",
              submissionStatus := SubmissionStatus.error,
              showSubmission := true }, none)
  else
    ({ s with submissionStatus := SubmissionStatus.submitting,
              submissionMessage := "Submitting data...",
              showSubmission := true }, some 1500)

/-- The body of the 1500 ms `setTimeout` callback in `submitData`: `const success = true`
followed by either the success branch (with a 2000 ms timer) or the dead
failure branch (with a 3000 ms timer). -/
def resolveSubmission (s : AppState) : AppState × Option ℕ :=
  let success := true
  if success then
    ({ s with submissionStatus := SubmissionStatus.success,
              submissionMessage := "Data submitted successfully!",
              patientName := "",
              patientAge := "",
              leftEarData := emptyDataset,
              rightEarData := emptyDataset }, some 2000)
  else
    ({ s with submissionStatus := SubmissionStatus.error,
              submissionMessage := "Failed to submit data. Please try again." }, some 3000)

/-- The 2000 ms timeout callback of the success branch. -/
def successAutoClose (s : AppState) : AppState :=
  { s with showSubmission := false,
           submissionStatus := SubmissionStatus.idle,
           submissionMessage := "" }

/-- The 3000 ms timeout callback of the (unreachable) failure branch. -/
def errorAutoIdle (s : AppState) : AppState :=
  { s with submissionStatus := SubmissionStatus.idle, submissionMessage := "" }

/-- The error dialog Close button: `onClick={() => setShowSubmission(false)}`. -/
def closeErrorDialog (s : AppState) : AppState :=
  { s with showSubmission := false }

/-- `frequencyToX` from App.tsx: logarithmic interpolation between the first
and last standard frequency, scaled to the canvas width.  `Math.log2` is
modelled as `Real.logb 2`. -/
noncomputable def frequencyToX (frequency canvasWidth : ℝ) : ℝ :=
  let minFrequency := Real.logb 2 (FREQUENCIES.getD 0 0 : ℕ)
  let maxFrequency := Real.logb 2 (FREQUENCIES.getD (FREQUENCIES.length - 1) 0 : ℕ)
  let logFrequency := Real.logb 2 frequency
  let normalizedFrequency := (logFrequency - minFrequency) / (maxFrequency - minFrequency)
  canvasWidth * normalizedFrequency

/-- `intensityToY` from App.tsx: linear interpolation over `INTENSITY_RANGE`. -/
noncomputable def intensityToY (intensity canvasHeight : ℝ) : ℝ :=
  let minIntensity := ((INTENSITY_RANGE.getD 0 0 : ℤ) : ℝ)
  let maxIntensity := ((INTENSITY_RANGE.getD 1 0 : ℤ) : ℝ)
  let normalizedIntensity := (intensity - minIntensity) / (maxIntensity - minIntensity)
  canvasHeight * normalizedIntensity

/-- `xToFrequency` from App.tsx, the inverse interpolation; `Math.pow(2, e)` is
modelled as the real power `(2 : ℝ) ^ e`. -/
noncomputable def xToFrequency (x canvasWidth : ℝ) : ℝ :=
  let minFrequency := Real.logb 2 (FREQUENCIES.getD 0 0 : ℕ)
  let maxFrequency := Real.logb 2 (FREQUENCIES.getD (FREQUENCIES.length - 1) 0 : ℕ)
  let normalizedX := x / canvasWidth
  let logFrequency := minFrequency + normalizedX * (maxFrequency - minFrequency)
  (2 : ℝ) ^ logFrequency

/-- `yToIntensity` from App.tsx. -/
noncomputable def yToIntensity (y canvasHeight : ℝ) : ℝ :=
  let minIntensity := ((INTENSITY_RANGE.getD 0 0 : ℤ) : ℝ)
  let maxIntensity := ((INTENSITY_RANGE.getD 1 0 : ℤ) : ℝ)
  let normalizedY := y / canvasHeight
  minIntensity + normalizedY * (maxIntensity - minIntensity)

/-- One iteration of the loop in `findNearestFrequency`: the accumulator is the
pair `(closestFrequency, minDiff)`. -/
noncomputable def nearestStep (freq : ℝ) (acc : ℕ × ℝ) (c : ℕ) : ℕ × ℝ :=
  if |freq - (c : ℝ)| < acc.2 then (c, |freq - (c : ℝ)|) else acc

/-- The loop of `findNearestFrequency`, applied to the already inverted
frequency value. -/
noncomputable def snapToNearest (freq : ℝ) : ℕ :=
  (FREQUENCIES.tail.foldl (nearestStep freq)
    (FREQUENCIES.headI, |freq - (FREQUENCIES.headI : ℝ)|)).1

/-- `findNearestFrequency` from App.tsx. -/
noncomputable def findNearestFrequency (x canvasWidth : ℝ) : ℕ :=
  snapToNearest (xToFrequency x canvasWidth)

/-- `Math.round(v / 5) * 5`, the intensity quantization of the click handler. -/
noncomputable def quantizeToStep (v : ℝ) : ℤ :=
  round (v / 5) * 5

/-- The dataset update of `handleCanvasClick`: copy the array, find the entry
of the clicked frequency, and if present replace its selected modality field.
A missing index (`findIndex` returning -1) leaves the data unchanged. -/
def applyClick (data : List AudiogramPoint) (isAir : Bool) (freq : ℕ) (intensity : ℤ) :
    List AudiogramPoint :=
  match data.findIdx? (fun p => p.frequency == freq) with
  | none => data
  | some i =>
    let p := data.getD i { frequency := 0, airConduction := none, boneConduction := none }
    data.set i
      (if isAir then { p with airConduction := some intensity }
       else { p with boneConduction := some intensity })

/-- `handleCanvasClick` from App.tsx, with the click position `(x, y)` already
relative to the canvas top-left corner (the `getBoundingClientRect` offset
applied) and the canvas dimensions passed explicitly. -/
noncomputable def handleCanvasClick (s : AppState) (x y canvasWidth canvasHeight : ℝ) :
    AppState :=
  let graphWidth := canvasWidth * 0.75 - LEFT_PADDING
  let graphHeight := canvasHeight - TOP_PADDING - BOTTOM_PADDING
  let adjustedX := x - LEFT_PADDING
  let adjustedY := y - TOP_PADDING
  if adjustedX < 0 ∨ adjustedX > graphWidth ∨ adjustedY < 0 ∨ adjustedY > graphHeight then
    s
  else
    let clickedFrequency := findNearestFrequency adjustedX graphWidth
    let clickedIntensity := quantizeToStep (yToIntensity adjustedY graphHeight)
    if clickedIntensity < INTENSITY_RANGE.getD 0 0 ∨
        clickedIntensity > INTENSITY_RANGE.getD 1 0 then
      s
    else
      match s.selectedEar with
      | Ear.left =>
        { s with leftEarData :=
            applyClick s.leftEarData s.isDrawingAir clickedFrequency clickedIntensity }
      | Ear.right =>
        { s with rightEarData :=
            applyClick s.rightEarData s.isDrawingAir clickedFrequency clickedIntensity }

/-- The dataset invariant of the spec: one entry per standard frequency in the
standard order, and every present threshold a multiple of 5 in [-10, 120]. -/
def thresholdOK : Option ℤ → Bool
  | none => true
  | some v => decide (v % 5 = 0) && decide (-10 ≤ v) && decide (v ≤ 120)

def DatasetInv (d : List AudiogramPoint) : Prop :=
  d.map (fun p => p.frequency) = FREQUENCIES ∧
  ∀ p ∈ d, thresholdOK p.airConduction = true ∧ thresholdOK p.boneConduction = true

instance (d : List AudiogramPoint) : Decidable (DatasetInv d) := by
  unfold DatasetInv
  infer_instance

/-- A concrete state with a valid name, a numeric age and one recorded point,
used as a sample input. -/
def validExampleState : AppState :=
  { initialState with
      patientName := "Jane",
      patientAge := "42",
      leftEarData := applyClick emptyDataset true 1000 40 }

/-- Claim C6: submitting with an empty trimmed patient name goes directly to the
`error` state with the name-specific message, schedules no timer, and never
enters `submitting`. -/
theorem submit_empty_name_error (s : AppState) (h : trimIsEmpty s.patientName = true) :
    (submitData s).1.submissionStatus = SubmissionStatus.error ∧
    (submitData s).1.submissionMessage = "Please enter patient name." ∧
    (submitData s).1.submissionStatus ≠ SubmissionStatus.submitting ∧
    (submitData s).2 = none := by
  simp [submitData, h]

theorem submit_empty_name_error_witness :
    trimIsEmpty initialState.patientName = true ∧
    ((submitData initialState).1.submissionStatus = SubmissionStatus.error ∧
     (submitData initialState).1.submissionMessage = "Please enter patient name." ∧
     (submitData initialState).1.submissionStatus ≠ SubmissionStatus.submitting ∧
     (submitData initialState).2 = none) :=
  ⟨by decide, submit_empty_name_error initialState (by decide)⟩

/-- Claim C7: after `clearData ear`, the dataset of that ear has exactly one entry
per standard frequency, in the standard order, with both threshold fields
null in every entry. -/
theorem clearData_resets (ear : Ear) (s : AppState) :
    (earData (clearData ear s) ear).map (fun p => p.frequency) = FREQUENCIES ∧
    ∀ p ∈ earData (clearData ear s) ear,
      p.airConduction = none ∧ p.boneConduction = none := by
  have h1 : earData (clearData ear s) ear = emptyDataset := by
    cases ear <;> rfl
  rw [h1]
  exact ⟨by decide, by decide⟩

/-- Claim C1: a submit with non-empty trimmed name, an age passing the numeric
validation and at least one recorded point enters `submitting` with a 1500 ms
timer; the timer callback unconditionally reaches `success`, resets both ear
datasets to all-null thresholds, clears the patient fields and schedules a
2000 ms timer whose callback returns the machine to `idle`. -/
theorem submit_valid_success_flow (s : AppState)
    (hname : trimIsEmpty s.patientName = false)
    (hage : (trimIsEmpty s.patientAge || jsNumberIsNaN s.patientAge) = false)
    (hdata : (hasEarData s.leftEarData || hasEarData s.rightEarData) = true) :
    (submitData s).1.submissionStatus = SubmissionStatus.submitting ∧
    (submitData s).2 = some 1500 ∧
    (resolveSubmission (submitData s).1).1.submissionStatus = SubmissionStatus.success ∧
    (resolveSubmission (submitData s).1).1.leftEarData = emptyDataset ∧
    (resolveSubmission (submitData s).1).1.rightEarData = emptyDataset ∧
    (∀ p ∈ (resolveSubmission (submitData s).1).1.leftEarData,
      p.airConduction = none ∧ p.boneConduction = none) ∧
    (∀ p ∈ (resolveSubmission (submitData s).1).1.rightEarData,
      p.airConduction = none ∧ p.boneConduction = none) ∧
    (resolveSubmission (submitData s).1).1.patientName = "" ∧
    (resolveSubmission (submitData s).1).1.patientAge = "" ∧
    (resolveSubmission (submitData s).1).2 = some 2000 ∧
    (successAutoClose (resolveSubmission (submitData s).1).1).submissionStatus =
      SubmissionStatus.idle := by
  have hboth : (!hasEarData s.leftEarData && !hasEarData s.rightEarData) = false := by
    rcases Bool.or_eq_true _ _ |>.mp hdata with h | h <;> simp [h]
  simp [submitData, hname, hage, hboth, resolveSubmission, successAutoClose]
  decide

theorem submit_valid_success_flow_witness :
    (trimIsEmpty validExampleState.patientName = false ∧
     (trimIsEmpty validExampleState.patientAge || jsNumberIsNaN validExampleState.patientAge)
       = false ∧
     (hasEarData validExampleState.leftEarData || hasEarData validExampleState.rightEarData)
       = true) ∧
    ((submitData validExampleState).1.submissionStatus = SubmissionStatus.submitting ∧
     (submitData validExampleState).2 = some 1500 ∧
     (resolveSubmission (submitData validExampleState).1).1.submissionStatus =
       SubmissionStatus.success ∧
     (resolveSubmission (submitData validExampleState).1).1.leftEarData = emptyDataset ∧
     (resolveSubmission (submitData validExampleState).1).1.rightEarData = emptyDataset ∧
     (∀ p ∈ (resolveSubmission (submitData validExampleState).1).1.leftEarData,
       p.airConduction = none ∧ p.boneConduction = none) ∧
     (∀ p ∈ (resolveSubmission (submitData validExampleState).1).1.rightEarData,
       p.airConduction = none ∧ p.boneConduction = none) ∧
     (resolveSubmission (submitData validExampleState).1).1.patientName = "" ∧
     (resolveSubmission (submitData validExampleState).1).1.patientAge = "" ∧
     (resolveSubmission (submitData validExampleState).1).2 = some 2000 ∧
     (successAutoClose (resolveSubmission (submitData validExampleState).1).1).submissionStatus =
       SubmissionStatus.idle) :=
  ⟨⟨by decide, by decide, by decide⟩,
   submit_valid_success_flow validExampleState (by decide) (by decide) (by decide)⟩

/-- Claim C5 counterexample: a validation failure puts the machine in `error` with no
timer scheduled, and dismissing the dialog leaves the status `error`, not
`idle`. -/
theorem error_state_no_auto_idle_cex :
    (submitData { initialState with patientAge := "42" }).1.submissionStatus =
      SubmissionStatus.error ∧
    (submitData { initialState with patientAge := "42" }).2 = none ∧
    (closeErrorDialog (submitData { initialState with patientAge := "42" }).1).submissionStatus ≠
      SubmissionStatus.idle := by
  decide

/-- Claim C5 amended: dismissing the error dialog hides it but leaves the machine in
`error`; error outcomes produced by validation schedule no automatic return to
`idle`. -/
theorem error_dismissal_keeps_error :
    (∀ s : AppState, s.submissionStatus = SubmissionStatus.error →
      (closeErrorDialog s).showSubmission = false ∧
      (closeErrorDialog s).submissionStatus = SubmissionStatus.error) ∧
    (∀ s : AppState, (submitData s).1.submissionStatus = SubmissionStatus.error →
      (submitData s).2 = none) := by
  constructor
  · intro s h
    exact ⟨rfl, h⟩
  · intro s h
    by_cases h1 : trimIsEmpty s.patientName = true
    · simp [submitData, h1]
    · by_cases h2 : (trimIsEmpty s.patientAge || jsNumberIsNaN s.patientAge) = true
      · simp [submitData, h1, h2]
      · by_cases h3 : (!hasEarData s.leftEarData && !hasEarData s.rightEarData) = true
        · simp [submitData, h1, h2, h3]
        · exfalso
          simp [submitData, h1, h2, h3] at h

theorem error_dismissal_keeps_error_witness :
    (({ initialState with submissionStatus := SubmissionStatus.error } : AppState).submissionStatus
        = SubmissionStatus.error ∧
     (closeErrorDialog { initialState with submissionStatus := SubmissionStatus.error }).showSubmission
        = false ∧
     (closeErrorDialog { initialState with submissionStatus := SubmissionStatus.error }).submissionStatus
        = SubmissionStatus.error) ∧
    ((submitData initialState).1.submissionStatus = SubmissionStatus.error ∧
     (submitData initialState).2 = none) :=
  ⟨⟨by decide,
    (error_dismissal_keeps_error.1 { initialState with submissionStatus := SubmissionStatus.error }
      (by decide)).1,
    (error_dismissal_keeps_error.1 { initialState with submissionStatus := SubmissionStatus.error }
      (by decide)).2⟩,
   by decide, error_dismissal_keeps_error.2 initialState (by decide)⟩

/-- Claim C4: a canvas click whose padding-adjusted coordinates fall outside the
plotting rectangle leaves both ear datasets unchanged. -/
theorem click_out_of_bounds_noop (s : AppState) (x y cw ch : ℝ)
    (h : x - LEFT_PADDING < 0 ∨ x - LEFT_PADDING > cw * 0.75 - LEFT_PADDING ∨
         y - TOP_PADDING < 0 ∨ y - TOP_PADDING > ch - TOP_PADDING - BOTTOM_PADDING) :
    (handleCanvasClick s x y cw ch).leftEarData = s.leftEarData ∧
    (handleCanvasClick s x y cw ch).rightEarData = s.rightEarData := by
  unfold handleCanvasClick
  rw [if_pos h]
  exact ⟨rfl, rfl⟩

theorem click_out_of_bounds_noop_witness :
    ((0 : ℝ) - LEFT_PADDING < 0 ∨
      (0 : ℝ) - LEFT_PADDING > 880 * 0.75 - LEFT_PADDING ∨
      (100 : ℝ) - TOP_PADDING < 0 ∨
      (100 : ℝ) - TOP_PADDING > 630 - TOP_PADDING - BOTTOM_PADDING) ∧
    ((handleCanvasClick initialState 0 100 880 630).leftEarData = initialState.leftEarData ∧
     (handleCanvasClick initialState 0 100 880 630).rightEarData = initialState.rightEarData) :=
  ⟨Or.inl (by norm_num [LEFT_PADDING]),
   click_out_of_bounds_noop initialState 0 100 880 630 (Or.inl (by norm_num [LEFT_PADDING]))⟩

/-- Claim C9: a mutation addressed to one ear (a canvas click with that ear selected,
or a clear of that ear) leaves the other ear's dataset completely unchanged. -/
theorem mutation_other_ear_unchanged (s : AppState) (x y cw ch : ℝ) :
    (s.selectedEar = Ear.left →
      (handleCanvasClick s x y cw ch).rightEarData = s.rightEarData) ∧
    (s.selectedEar = Ear.right →
      (handleCanvasClick s x y cw ch).leftEarData = s.leftEarData) ∧
    (clearData Ear.left s).rightEarData = s.rightEarData ∧
    (clearData Ear.right s).leftEarData = s.leftEarData := by
  refine ⟨fun h => ?_, fun h => ?_, rfl, rfl⟩ <;>
    · unfold handleCanvasClick
      dsimp only
      rw [h]
      dsimp only
      split
      · rfl
      · split
        · rfl
        · rfl

theorem mutation_other_ear_unchanged_witness :
    initialState.selectedEar = Ear.left ∧
    (handleCanvasClick initialState 0 100 880 630).rightEarData = initialState.rightEarData ∧
    (clearData Ear.left initialState).rightEarData = initialState.rightEarData ∧
    (clearData Ear.right initialState).leftEarData = initialState.leftEarData :=
  ⟨by decide,
   (mutation_other_ear_unchanged initialState 0 100 880 630).1 (by decide),
   (mutation_other_ear_unchanged initialState 0 100 880 630).2.2.1,
   (mutation_other_ear_unchanged initialState 0 100 880 630).2.2.2⟩

lemma logb_freq_span_ne :
    Real.logb 2 (8000 : ℝ) - Real.logb 2 (250 : ℝ) ≠ 0 := by
  have h : Real.logb 2 (250 : ℝ) < Real.logb 2 (8000 : ℝ) := by
    apply Real.logb_lt_logb (by norm_num) (by norm_num) (by norm_num)
  exact sub_ne_zero_of_ne h.ne'

/-- Inverting the horizontal map is exact over the reals. -/
lemma xToFrequency_frequencyToX (f w : ℝ) (hf : 0 < f) (hw : w ≠ 0) :
    xToFrequency (frequencyToX f w) w = f := by
  have hD := logb_freq_span_ne
  unfold xToFrequency frequencyToX
  dsimp only
  norm_num [FREQUENCIES]
  conv_rhs => rw [← Real.rpow_logb (show (0 : ℝ) < 2 by norm_num)
    (show (2 : ℝ) ≠ 1 by norm_num) hf]
  congr 1
  field_simp
  ring

/-- The loop of `findNearestFrequency` maps each standard frequency to itself. -/
lemma snapToNearest_self (f : ℕ) (hf : f ∈ FREQUENCIES) : snapToNearest (f : ℝ) = f := by
  fin_cases hf <;>
    norm_num [snapToNearest, FREQUENCIES, nearestStep, List.foldl,
      abs_of_nonpos, abs_of_nonneg]

/-- Claim C2: for every standard frequency and every positive plotting width, mapping
to a pixel offset with `frequencyToX`, back with `xToFrequency` and snapping
with `findNearestFrequency` yields the original frequency. -/
theorem frequency_roundtrip (f : ℕ) (hf : f ∈ FREQUENCIES) (w : ℝ) (hw : 0 < w) :
    findNearestFrequency (frequencyToX (f : ℝ) w) w = f := by
  have hfpos : 0 < ((f : ℕ) : ℝ) := by
    have : 0 < f := by fin_cases hf <;> norm_num
    exact_mod_cast this
  unfold findNearestFrequency
  rw [xToFrequency_frequencyToX (f : ℝ) w hfpos hw.ne']
  exact snapToNearest_self f hf

theorem frequency_roundtrip_witness :
    1000 ∈ FREQUENCIES ∧ (0 : ℝ) < 1 ∧
    findNearestFrequency (frequencyToX ((1000 : ℕ) : ℝ) 1) 1 = 1000 :=
  ⟨by decide, zero_lt_one, frequency_roundtrip 1000 (by decide) 1 zero_lt_one⟩

/-- Inverting the vertical map is exact over the reals. -/
lemma yToIntensity_intensityToY (v h : ℝ) (hh : h ≠ 0) :
    yToIntensity (intensityToY v h) h = v := by
  unfold yToIntensity intensityToY
  dsimp only
  norm_num [INTENSITY_RANGE]
  field_simp
  ring

/-- Claim C3: for every intensity that is a multiple of 5 in [-10, 120] and every
positive plotting height, mapping to a pixel offset with `intensityToY`, back
with `yToIntensity` and quantizing to the nearest multiple of 5 yields the
original intensity. -/
theorem intensity_roundtrip (i : ℤ) (h5 : i % 5 = 0) (hlo : -10 ≤ i) (hhi : i ≤ 120)
    (h : ℝ) (hh : 0 < h) :
    quantizeToStep (yToIntensity (intensityToY (i : ℝ) h) h) = i := by
  rw [yToIntensity_intensityToY (i : ℝ) h hh.ne']
  obtain ⟨k, rfl⟩ : ∃ k, i = 5 * k := ⟨i / 5, (Int.ediv_add_emod i 5).symm.trans (by omega)⟩
  unfold quantizeToStep
  have hdiv : (((5 * k : ℤ) : ℝ)) / 5 = (k : ℝ) := by
    push_cast
    ring
  rw [hdiv, round_intCast]
  ring

theorem intensity_roundtrip_witness :
    (40 : ℤ) % 5 = 0 ∧ (-10 : ℤ) ≤ 40 ∧ (40 : ℤ) ≤ 120 ∧ (0 : ℝ) < 1 ∧
    quantizeToStep (yToIntensity (intensityToY ((40 : ℤ) : ℝ) 1) 1) = 40 :=
  ⟨by decide, by decide, by decide, zero_lt_one,
   intensity_roundtrip 40 (by decide) (by decide) (by decide) 1 zero_lt_one⟩

lemma set_getElem_self_eq {α : Type} (l : List α) (i : ℕ) (h : i < l.length) :
    l.set i l[i] = l := by
  apply List.ext_getElem (by simp)
  intro j h1 h2
  rw [List.getElem_set]
  split
  · rename_i hij
    subst hij
    rfl
  · rfl

lemma getD_set_ne {α : Type} (l : List α) (i j : ℕ) (a dflt : α)
    (h : i ≠ j) : (l.set i a).getD j dflt = l.getD j dflt := by
  by_cases hj : j < l.length
  · rw [List.getD_eq_getElem _ _ (by simpa using hj), List.getD_eq_getElem _ _ hj,
      List.getElem_set_ne h]
  · rw [List.getD_eq_default _ _ (by simpa using Nat.le_of_not_lt hj),
      List.getD_eq_default _ _ (Nat.le_of_not_lt hj)]

/-- The intensity written by an in-range click is a multiple of 5. -/
lemma quantizeToStep_mul_five (v : ℝ) : quantizeToStep v % 5 = 0 := by
  unfold quantizeToStep
  exact Int.mul_emod_left _ 5

/-- `applyClick` preserves the dataset invariant when the written intensity is
a valid threshold. -/
lemma applyClick_inv (d : List AudiogramPoint) (air : Bool) (f : ℕ) (q : ℤ)
    (hInv : DatasetInv d) (h5 : q % 5 = 0) (hlo : -10 ≤ q) (hhi : q ≤ 120) :
    DatasetInv (applyClick d air f q) := by
  obtain ⟨hmap, hthr⟩ := hInv
  unfold applyClick
  cases hidx : d.findIdx? (fun p => p.frequency == f) with
  | none => exact ⟨hmap, hthr⟩
  | some i =>
    obtain ⟨hi, hp, hmin⟩ := List.findIdx?_eq_some_iff_getElem.mp hidx
    have hgd : d.getD i ⟨0, none, none⟩ = d[i] := List.getD_eq_getElem d _ hi
    have hbase := hthr d[i] (List.getElem_mem hi)
    have hq : thresholdOK (some q) = true := by
      simp [thresholdOK, h5, hlo, hhi]
    dsimp only
    rw [hgd]
    refine ⟨?_, ?_⟩
    · rw [List.map_set]
      have hfr :
          (if air = true then { d[i] with airConduction := some q }
            else { d[i] with boneConduction := some q }).frequency = d[i].frequency := by
        cases air <;> rfl
      rw [hfr]
      have him : i < (d.map (fun p => p.frequency)).length := by simpa using hi
      have hge : d[i].frequency = (d.map (fun p => p.frequency))[i] := by simp
      rw [hge, set_getElem_self_eq (d.map (fun p => p.frequency)) i him]
      exact hmap
    · intro p' hp'
      rcases List.mem_or_eq_of_mem_set hp' with hmem | heq
      · exact hthr p' hmem
      · subst heq
        cases air
        · exact ⟨hbase.1, hq⟩
        · exact ⟨hq, hbase.2⟩

/-- Claim C8: initialization, canvas clicks, per-ear clear and the post-submission
reset all preserve the dataset invariant: one entry per standard frequency
drawn from the fixed standard set, entries never added or removed, and every
present threshold a multiple of 5 in [-10, 120]. -/
theorem dataset_invariant_preserved :
    (DatasetInv initialState.leftEarData ∧ DatasetInv initialState.rightEarData) ∧
    (∀ (s : AppState) (x y cw ch : ℝ),
      DatasetInv s.leftEarData → DatasetInv s.rightEarData →
      DatasetInv (handleCanvasClick s x y cw ch).leftEarData ∧
      DatasetInv (handleCanvasClick s x y cw ch).rightEarData) ∧
    (∀ (ear : Ear) (s : AppState),
      DatasetInv s.leftEarData → DatasetInv s.rightEarData →
      DatasetInv (clearData ear s).leftEarData ∧
      DatasetInv (clearData ear s).rightEarData) ∧
    (∀ s : AppState,
      DatasetInv (resolveSubmission s).1.leftEarData ∧
      DatasetInv (resolveSubmission s).1.rightEarData) := by
  refine ⟨⟨by decide, by decide⟩, ?_, ?_, ?_⟩
  · intro s x y cw ch hl hr
    unfold handleCanvasClick
    dsimp only
    split
    · exact ⟨hl, hr⟩
    · split
      · exact ⟨hl, hr⟩
      · rename_i hguard
        push_neg at hguard
        have hlo : (-10 : ℤ) ≤
            quantizeToStep (yToIntensity (y - TOP_PADDING) (ch - TOP_PADDING - BOTTOM_PADDING)) :=
          hguard.1
        have hhi :
            quantizeToStep (yToIntensity (y - TOP_PADDING) (ch - TOP_PADDING - BOTTOM_PADDING))
              ≤ (120 : ℤ) :=
          hguard.2
        split
        · exact ⟨applyClick_inv _ _ _ _ hl (quantizeToStep_mul_five _) hlo hhi, hr⟩
        · exact ⟨hl, applyClick_inv _ _ _ _ hr (quantizeToStep_mul_five _) hlo hhi⟩
  · intro ear s hl hr
    cases ear
    · exact ⟨show DatasetInv emptyDataset by decide, hr⟩
    · exact ⟨hl, show DatasetInv emptyDataset by decide⟩
  · intro s
    exact ⟨show DatasetInv emptyDataset by decide, show DatasetInv emptyDataset by decide⟩

theorem dataset_invariant_preserved_witness :
    (DatasetInv initialState.leftEarData ∧ DatasetInv initialState.rightEarData) ∧
    (DatasetInv (handleCanvasClick initialState 80 80 880 630).leftEarData ∧
     DatasetInv (handleCanvasClick initialState 80 80 880 630).rightEarData) ∧
    (DatasetInv (clearData Ear.left initialState).leftEarData ∧
     DatasetInv (clearData Ear.left initialState).rightEarData) ∧
    (DatasetInv (resolveSubmission initialState).1.leftEarData ∧
     DatasetInv (resolveSubmission initialState).1.rightEarData) :=
  ⟨dataset_invariant_preserved.1,
   dataset_invariant_preserved.2.1 initialState 80 80 880 630 (by decide) (by decide),
   dataset_invariant_preserved.2.2.1 Ear.left initialState (by decide) (by decide),
   dataset_invariant_preserved.2.2.2 initialState⟩

/-- The intensity computed from an in-bounds click is always within the valid
range, so the range guard of the click handler never fires. -/
lemma quantizeToStep_inBounds (ay gh : ℝ) (h0 : 0 ≤ ay) (h1 : ay ≤ gh) :
    -10 ≤ quantizeToStep (yToIntensity ay gh) ∧
    quantizeToStep (yToIntensity ay gh) ≤ 120 := by
  have hveq : yToIntensity ay gh = -10 + ay / gh * 130 := by
    unfold yToIntensity
    dsimp only
    norm_num [INTENSITY_RANGE]
  have hv : (-10 : ℝ) ≤ yToIntensity ay gh ∧ yToIntensity ay gh ≤ 120 := by
    by_cases hgh : gh = 0
    · have hay : ay = 0 := le_antisymm (hgh ▸ h1) h0
      rw [hveq, hay, zero_div]
      norm_num
    · have hghpos : 0 < gh := lt_of_le_of_ne (le_trans h0 h1) (Ne.symm hgh)
      have h01 : 0 ≤ ay / gh := div_nonneg h0 hghpos.le
      have h11 : ay / gh ≤ 1 := (div_le_one hghpos).mpr h1
      rw [hveq]
      constructor <;> nlinarith
  obtain ⟨ha, hb⟩ := hv
  unfold quantizeToStep
  have hlb : (-2 : ℤ) ≤ round (yToIntensity ay gh / 5) := by
    rw [round_eq]
    apply Int.le_floor.mpr
    push_cast
    linarith
  have hub : round (yToIntensity ay gh / 5) ≤ 24 := by
    rw [round_eq]
    have hfl : ⌊yToIntensity ay gh / 5 + 1 / 2⌋ < 25 :=
      Int.floor_lt.mpr (by push_cast; linarith)
    omega
  constructor
  · linarith
  · linarith

/-- The loop of `findNearestFrequency` only ever returns elements of the
standard frequency list. -/
lemma foldl_nearestStep_mem (freq : ℝ) :
    ∀ (l : List ℕ) (acc : ℕ × ℝ), acc.1 ∈ FREQUENCIES → (∀ c ∈ l, c ∈ FREQUENCIES) →
      (l.foldl (nearestStep freq) acc).1 ∈ FREQUENCIES := by
  intro l
  induction l with
  | nil => exact fun acc h _ => h
  | cons c cs ih =>
    intro acc hacc hl
    rw [List.foldl_cons]
    apply ih
    · unfold nearestStep
      split
      · exact hl c (List.mem_cons_self c cs)
      · exact hacc
    · exact fun c' hc' => hl c' (List.mem_cons_of_mem _ hc')

lemma findNearestFrequency_mem (x w : ℝ) : findNearestFrequency x w ∈ FREQUENCIES := by
  unfold findNearestFrequency snapToNearest
  apply foldl_nearestStep_mem
  · show FREQUENCIES.headI ∈ FREQUENCIES
    decide
  · show ∀ c ∈ FREQUENCIES.tail, c ∈ FREQUENCIES
    decide

/-- In a dataset satisfying the invariant, `findIndex` over a standard
frequency never returns -1. -/
lemma findIdx?_frequency_some (d : List AudiogramPoint)
    (hmap : d.map (fun p => p.frequency) = FREQUENCIES) (f : ℕ) (hf : f ∈ FREQUENCIES) :
    ∃ i, d.findIdx? (fun p => p.frequency == f) = some i := by
  rw [← hmap] at hf
  obtain ⟨p, hp, hpf⟩ := List.mem_map.mp hf
  have hsome : (d.findIdx? (fun p => p.frequency == f)).isSome = true := by
    rw [List.findIdx?_isSome]
    exact List.any_eq_true.mpr ⟨p, hp, by simp [hpf]⟩
  exact Option.isSome_iff_exists.mp hsome

lemma getD_set_self_eq {α : Type} (l : List α) (i : ℕ) (a dflt : α) (h : i < l.length) :
    (l.set i a).getD i dflt = a := by
  rw [List.getD_eq_getElem _ _ (by simpa using h)]
  exact List.getElem_set_self (by simpa using h)

/-- The frequency the click handler computes for the click position. -/
noncomputable def clickedFrequencyAt (x cw : ℝ) : ℕ :=
  findNearestFrequency (x - LEFT_PADDING) (cw * 0.75 - LEFT_PADDING)

/-- The quantized intensity the click handler computes for the click position. -/
noncomputable def clickedIntensityAt (y ch : ℝ) : ℤ :=
  quantizeToStep (yToIntensity (y - TOP_PADDING) (ch - TOP_PADDING - BOTTOM_PADDING))

/-- Claim C10: for a click that passes the plotting-rectangle bounds check on a
dataset satisfying the invariant, the two later guards of `handleCanvasClick`
are unreachable — the quantized intensity is within [-10, 120], the snapped
frequency is a standard frequency and `findIndex` succeeds — and the click
updates exactly one threshold field, leaving the entry's frequency, its other
modality field and all other entries unchanged. -/
theorem inbounds_click_guards_unreachable (s : AppState) (x y cw ch : ℝ)
    (hx0 : 0 ≤ x - LEFT_PADDING) (hx1 : x - LEFT_PADDING ≤ cw * 0.75 - LEFT_PADDING)
    (hy0 : 0 ≤ y - TOP_PADDING) (hy1 : y - TOP_PADDING ≤ ch - TOP_PADDING - BOTTOM_PADDING)
    (hInv : DatasetInv (earData s s.selectedEar)) :
    (-10 ≤ clickedIntensityAt y ch ∧ clickedIntensityAt y ch ≤ 120) ∧
    clickedFrequencyAt x cw ∈ FREQUENCIES ∧
    ∃ i, (earData s s.selectedEar).findIdx?
        (fun p => p.frequency == clickedFrequencyAt x cw) = some i ∧
      i < (earData s s.selectedEar).length ∧
      (earData (handleCanvasClick s x y cw ch) s.selectedEar).length =
        (earData s s.selectedEar).length ∧
      (∀ j, j ≠ i →
        (earData (handleCanvasClick s x y cw ch) s.selectedEar).getD j ⟨0, none, none⟩ =
          (earData s s.selectedEar).getD j ⟨0, none, none⟩) ∧
      ((earData (handleCanvasClick s x y cw ch) s.selectedEar).getD i
          ⟨0, none, none⟩).frequency =
        ((earData s s.selectedEar).getD i ⟨0, none, none⟩).frequency ∧
      (s.isDrawingAir = true →
        ((earData (handleCanvasClick s x y cw ch) s.selectedEar).getD i
            ⟨0, none, none⟩).airConduction = some (clickedIntensityAt y ch) ∧
        ((earData (handleCanvasClick s x y cw ch) s.selectedEar).getD i
            ⟨0, none, none⟩).boneConduction =
          ((earData s s.selectedEar).getD i ⟨0, none, none⟩).boneConduction) ∧
      (s.isDrawingAir = false →
        ((earData (handleCanvasClick s x y cw ch) s.selectedEar).getD i
            ⟨0, none, none⟩).boneConduction = some (clickedIntensityAt y ch) ∧
        ((earData (handleCanvasClick s x y cw ch) s.selectedEar).getD i
            ⟨0, none, none⟩).airConduction =
          ((earData s s.selectedEar).getD i ⟨0, none, none⟩).airConduction) := by
  obtain ⟨hq1, hq2⟩ :=
    quantizeToStep_inBounds (y - TOP_PADDING) (ch - TOP_PADDING - BOTTOM_PADDING) hy0 hy1
  have hfm := findNearestFrequency_mem (x - LEFT_PADDING) (cw * 0.75 - LEFT_PADDING)
  obtain ⟨i, hidx⟩ := findIdx?_frequency_some (earData s s.selectedEar) hInv.1
    (clickedFrequencyAt x cw) hfm
  obtain ⟨hi, hpi, hmin⟩ := List.findIdx?_eq_some_iff_getElem.mp hidx
  have hclick : earData (handleCanvasClick s x y cw ch) s.selectedEar =
      applyClick (earData s s.selectedEar) s.isDrawingAir (clickedFrequencyAt x cw)
        (clickedIntensityAt y ch) := by
    unfold handleCanvasClick
    dsimp only
    rw [if_neg (by push_neg; exact ⟨hx0, hx1, hy0, hy1⟩)]
    rw [if_neg (by push_neg; exact ⟨hq1, hq2⟩)]
    cases hsel : s.selectedEar
    · rfl
    · rfl
  have happ : applyClick (earData s s.selectedEar) s.isDrawingAir (clickedFrequencyAt x cw)
      (clickedIntensityAt y ch) =
      (earData s s.selectedEar).set i
        (if s.isDrawingAir = true then
          { (earData s s.selectedEar).getD i ⟨0, none, none⟩ with
              airConduction := some (clickedIntensityAt y ch) }
        else
          { (earData s s.selectedEar).getD i ⟨0, none, none⟩ with
              boneConduction := some (clickedIntensityAt y ch) }) := by
    unfold applyClick
    rw [hidx]
  have hgetset :
      (earData (handleCanvasClick s x y cw ch) s.selectedEar).getD i ⟨0, none, none⟩ =
      (if s.isDrawingAir = true then
        { (earData s s.selectedEar).getD i ⟨0, none, none⟩ with
            airConduction := some (clickedIntensityAt y ch) }
      else
        { (earData s s.selectedEar).getD i ⟨0, none, none⟩ with
            boneConduction := some (clickedIntensityAt y ch) }) := by
    rw [hclick, happ]
    exact getD_set_self_eq _ i _ _ hi
  refine ⟨⟨hq1, hq2⟩, hfm, i, hidx, hi, ?_, ?_, ?_, ?_, ?_⟩
  · rw [hclick, happ, List.length_set]
  · intro j hj
    rw [hclick, happ]
    exact getD_set_ne _ i j _ _ (fun he => hj he.symm)
  · rw [hgetset]
    cases hair : s.isDrawingAir
    · rw [if_neg (by simp)]
    · rw [if_pos rfl]
  · intro hair
    rw [hgetset, hair, if_pos rfl]
    exact ⟨rfl, rfl⟩
  · intro hair
    rw [hgetset, hair, if_neg (by simp)]
    exact ⟨rfl, rfl⟩

theorem inbounds_click_guards_unreachable_witness :
    ((0 : ℝ) ≤ 80 - LEFT_PADDING ∧ (80 : ℝ) - LEFT_PADDING ≤ 880 * 0.75 - LEFT_PADDING ∧
     (0 : ℝ) ≤ 80 - TOP_PADDING ∧
     (80 : ℝ) - TOP_PADDING ≤ 630 - TOP_PADDING - BOTTOM_PADDING ∧
     DatasetInv (earData initialState initialState.selectedEar)) ∧
    ((-10 ≤ clickedIntensityAt 80 630 ∧ clickedIntensityAt 80 630 ≤ 120) ∧
     clickedFrequencyAt 80 880 ∈ FREQUENCIES ∧
     ∃ i, (earData initialState initialState.selectedEar).findIdx?
        (fun p => p.frequency == clickedFrequencyAt 80 880) = some i ∧
       i < (earData initialState initialState.selectedEar).length ∧
       (earData (handleCanvasClick initialState 80 80 880 630)
           initialState.selectedEar).length =
         (earData initialState initialState.selectedEar).length ∧
       (∀ j, j ≠ i →
         (earData (handleCanvasClick initialState 80 80 880 630)
             initialState.selectedEar).getD j ⟨0, none, none⟩ =
           (earData initialState initialState.selectedEar).getD j ⟨0, none, none⟩) ∧
       ((earData (handleCanvasClick initialState 80 80 880 630)
           initialState.selectedEar).getD i ⟨0, none, none⟩).frequency =
         ((earData initialState initialState.selectedEar).getD i ⟨0, none, none⟩).frequency ∧
       (initialState.isDrawingAir = true →
         ((earData (handleCanvasClick initialState 80 80 880 630)
             initialState.selectedEar).getD i ⟨0, none, none⟩).airConduction =
           some (clickedIntensityAt 80 630) ∧
         ((earData (handleCanvasClick initialState 80 80 880 630)
             initialState.selectedEar).getD i ⟨0, none, none⟩).boneConduction =
           ((earData initialState initialState.selectedEar).getD i
             ⟨0, none, none⟩).boneConduction) ∧
       (initialState.isDrawingAir = false →
         ((earData (handleCanvasClick initialState 80 80 880 630)
             initialState.selectedEar).getD i ⟨0, none, none⟩).boneConduction =
           some (clickedIntensityAt 80 630) ∧
         ((earData (handleCanvasClick initialState 80 80 880 630)
             initialState.selectedEar).getD i ⟨0, none, none⟩).airConduction =
           ((earData initialState initialState.selectedEar).getD i
             ⟨0, none, none⟩).airConduction)) :=
  ⟨⟨by norm_num [LEFT_PADDING], by norm_num [LEFT_PADDING],
    by norm_num [TOP_PADDING], by norm_num [TOP_PADDING, BOTTOM_PADDING], by decide⟩,
   inbounds_click_guards_unreachable initialState 80 80 880 630
     (by norm_num [LEFT_PADDING]) (by norm_num [LEFT_PADDING])
     (by norm_num [TOP_PADDING]) (by norm_num [TOP_PADDING, BOTTOM_PADDING]) (by decide)⟩

end Audiogram
